import Mathlib

/-!
Verification of the provisioning orchestrator of `text_to_processor`.

This file shallowly embeds the Python sources under `src/` and proves or
refutes the frozen claims about them.  External effects (subprocess runs,
HTTP requests, the file system) are modelled by explicit outcome values
handed to the embedded functions; everything the Python code computes from
those outcomes (classification of exit statuses, validation, gating,
filename numbering, dictionary merging) is translated directly from the
source.
-/

/-- Model of a parsed JSON value.  Numeric JSON values are modelled as
integers (the configuration files and REST bodies in this repository only
carry integral numbers where the code inspects them). -/
inductive JValue where
  | str (s : String)
  | num (n : Int)
  | bool (b : Bool)
  | arr (xs : List JValue)
  | obj (fields : List (String × JValue))
  | null

/-- A Python `dict` parsed from JSON: an insertion-ordered association list.
A genuine Python dict never holds a duplicated key. -/
abbrev Config := List (String × JValue)

/-- Membership of a key in a dict: Python `field in config`. -/
def hasKey (c : Config) (k : String) : Bool :=
  (List.lookup k c).isSome

/-- Python truthiness of an optional loaded dict (`if not connector_config`):
`None` and the empty dict are falsy, every non-empty dict is truthy. -/
def configTruthy : Option Config → Bool
  | none => false
  | some c => !c.isEmpty

/-- Python truthiness of a JSON value (`if auto_offset_reset:` and the like):
`None`, `""`, `0`, `False`, `[]`, `{}` are falsy. -/
def jvTruthy : JValue → Bool
  | .str s => !s.isEmpty
  | .num n => n != 0
  | .bool b => b
  | .arr xs => !xs.isEmpty
  | .obj fs => !fs.isEmpty
  | .null => false

/-! ## asp_utils/config_utils.py -/

/-- The nine required fields of `validate_main_config`
(src/asp_utils/config_utils.py lines 30-40). -/
def mainConfigRequiredFields : List String :=
  [ "confluent-cluster-id",
    "confluent-rest-endpoint",
    "mongodb-stream-processor-instance-url",
    "stream-processor-prefix",
    "kafka-connection-name",
    "mongodb-connection-name",
    "mongodb-cluster-name",
    "mongodb-group-id",
    "mongodb-tenant-name" ]

/-- Embedding of `validate_main_config` (src/asp_utils/config_utils.py
lines 28-47): loops over the required fields and returns `False` on the
first one not present as a key; reaching the end returns `True`.  Values
are never inspected. -/
def validate_main_config (config : Config) : Bool :=
  mainConfigRequiredFields.all (fun field => hasKey config field)

/-! ## asp_utils/api_client.py : CLI-backed connection provisioners -/

/-- Outcome of a `subprocess.run` call with `capture_output=True` and a
timeout: either the process completed with an exit code, stdout and stderr,
or the call raised `TimeoutExpired`, or some other exception was raised. -/
inductive CmdOutcome where
  | completed (returncode : Int) (stdout stderr : String)
  | timeout
  | exn

/-- Substring containment on character lists, used to model Python's
`needle in hay` for strings. -/
def strContains (hay needle : String) : Bool :=
  decide (needle.data <:+: hay.data)

/-- Lowercasing as performed by Python's `str.lower()` on the ASCII error
texts involved here, modelled character by character. -/
def lowerStr (s : String) : List Char :=
  s.data.map Char.toLower

/-- Containment of a (lower-case) needle in the lowercased haystack,
modelling `needle in hay.lower()`. -/
def containsInLower (hay : String) (needle : String) : Bool :=
  decide (needle.data <:+: lowerStr hay)

/-- The existence-marker scan shared by both CLI provisioners
(src/asp_utils/api_client.py lines 58 and 134):
`"already exists" in result.stderr.lower() or "duplicate" in result.stderr.lower()`. -/
def stderrIndicatesExists (stderr : String) : Bool :=
  containsInLower stderr "already exists" || containsInLower stderr "duplicate"

/-- Embedding of the outcome classification of `create_mongodb_connection`
(src/asp_utils/api_client.py lines 51-76).  The function writes a transient
config file, invokes the Atlas CLI and returns `(success, was_created)`:
exit code 0 gives `(True, True)`; a non-zero exit whose stderr carries an
existence marker gives `(True, False)`; any other non-zero exit gives
`(False, False)`; `TimeoutExpired` and any unexpected exception give
`(False, False)`. -/
def create_mongodb_connection (outcome : CmdOutcome) : Bool × Bool :=
  match outcome with
  | .completed returncode _ stderr =>
      if returncode = 0 then (true, true)
      else if stderrIndicatesExists stderr then (true, false)
      else (false, false)
  | .timeout => (false, false)
  | .exn => (false, false)

/-- Embedding of the outcome classification of `create_kafka_connection`
(src/asp_utils/api_client.py lines 127-152), textually the same
classification as `create_mongodb_connection`. -/
def create_kafka_connection (outcome : CmdOutcome) : Bool × Bool :=
  match outcome with
  | .completed returncode _ stderr =>
      if returncode = 0 then (true, true)
      else if stderrIndicatesExists stderr then (true, false)
      else (false, false)
  | .timeout => (false, false)
  | .exn => (false, false)

/-! ## asp_utils/api_client.py : remote-shell URL normalization -/

/-- Model of Python `s.endswith('/')`: the last character is a slash. -/
def endsWithSlash (s : String) : Bool :=
  s.data.getLast? = some '/'

/-- Embedding of the URL normalization performed at the top of
`execute_stream_processing_javascript` (src/asp_utils/api_client.py lines
174-176): `if not stream_processor_url.endswith('/'): stream_processor_url += '/'`. -/
def normalize_stream_processor_url (url : String) : String :=
  if endsWithSlash url then url else url ++ "/"

/-! ## asp_utils/api_client.py : pipeline builders -/

/-- Embedding of `create_simple_kafka_topic_to_mongodb_pipeline`
(src/asp_utils/api_client.py lines 343-390).  `topics` is the Python
`Union[str, List[str]]` argument carried as a JSON value;
`auto_offset_reset` is the optional argument, gated by Python truthiness
(`if auto_offset_reset:`), appending a `config` entry to the source stage. -/
def create_simple_kafka_topic_to_mongodb_pipeline
    (kafka_connection_name : String) (topics : JValue)
    (mongodb_connection_name database collection : String)
    (auto_offset_reset : Option String) : List JValue :=
  let baseStage : Config :=
    [ ("connectionName", .str kafka_connection_name),
      ("topic", topics) ]
  let source_stage : Config :=
    match auto_offset_reset with
    | some r =>
        if !r.isEmpty then
          baseStage ++ [("config", .obj [("auto_offset_reset", .str r)])]
        else baseStage
    | none => baseStage
  [ .obj [("$source", .obj source_stage)],
    .obj [("$merge", .obj
      [ ("into", .obj
          [ ("connectionName", .str mongodb_connection_name),
            ("db", .str database),
            ("coll", .str collection) ]) ])] ]

/-! ## asp_utils/api_client.py : REST-backed topic provisioner -/

/-- Outcome of the `requests.post` call in `create_topic`: a response with a
status code and an optional parsed JSON object body (`none` models a body
that does not parse as a JSON object, making `response.json()` or the
subsequent `.get` raise), a `RequestException`, or any other exception. -/
inductive HttpResult where
  | response (status : Nat) (body : Option Config)
  | requestException
  | exn

/-- Embedding of `create_topic` (src/asp_utils/api_client.py lines 393-451):
status 201 and 409 return `True`; for any other status the JSON body is
inspected and `error_code == 40002` returns `True`, everything else
(including unparsable bodies) returns `False`; `RequestException` and any
unexpected exception return `False`. -/
def create_topic (result : HttpResult) : Bool :=
  match result with
  | .response status body =>
      if status = 201 then true
      else if status = 409 then true
      else
        match body with
        | some fields =>
            match List.lookup "error_code" fields with
            | some (.num code) => code = 40002
            | _ => false
        | none => false
  | .requestException => false
  | .exn => false

/-! ## Batch orchestrators
(src/confluent_config_to_asp/create_sink_processors.py and
src/confluent_config_to_asp/create_source_processors.py)

External effects of a run are modelled by an environment value: the outcome
of the auth check, the load outcome of each discovered `.json` file
(`none` when `load_json_file` returned `None`), the outcomes of the two
Atlas CLI connection calls, and — per file index — the outcome of the
per-file REST topic call (source only) and of the per-file
`create_stream_processor` call site. -/

/-- A Python exception relevant to the embedded control flow. -/
inductive PyError where
  | jsonDecodeError
  | typeError

/-- Embedding of the sink `validate_connector_config`
(src/confluent_config_to_asp/create_sink_processors.py lines 63-91): all
eight required fields present; `topics` must be a string or a list
(`isinstance(topics, (str, list))`), and a list must be non-empty. -/
def validate_connector_config_sink (config : Config) : Bool :=
  [ "kafka.api.key", "kafka.api.secret", "input.data.format",
    "connection.user", "connection.password",
    "topics", "database", "collection" ].all (fun field => hasKey config field)
  &&
  (match List.lookup "topics" config with
   | some (.str _) => true
   | some (.arr xs) => !xs.isEmpty
   | _ => false)

/-- Embedding of the source `validate_connector_config`
(src/confluent_config_to_asp/create_source_processors.py lines 56-65):
seven required fields present, values never inspected. -/
def validate_connector_config_source (config : Config) : Bool :=
  [ "kafka.api.key", "kafka.api.secret", "topic.prefix",
    "database", "collection",
    "connection.user", "connection.password" ].all (fun field => hasKey config field)

/-- The sink per-file offset-reset guard
(src/confluent_config_to_asp/create_sink_processors.py lines 187-190):
`auto_offset_reset = config.get("consumer.override.auto.offset.reset")`,
then skip the file when the value is truthy and (by Python `in`, i.e. `==`
against each element) neither `"earliest"` nor `"latest"`. -/
def offset_reset_ok (config : Config) : Bool :=
  match List.lookup "consumer.override.auto.offset.reset" config with
  | some v =>
      if jvTruthy v then
        match v with
        | .str s => s == "earliest" || s == "latest"
        | _ => false
      else true
  | none => true

/-- Whether a sink connector file survives the per-file checks before the
shared-connection gate: it loaded to a truthy dict, validated, and carries
an acceptable optional offset reset.  Each failing check executes
`continue`. -/
def eligibleSink (file : Option Config) : Bool :=
  match file with
  | none => false
  | some c =>
      !c.isEmpty && validate_connector_config_sink c && offset_reset_ok c

/-- Whether a source connector file survives loading and validation in the
per-file loop of the source orchestrator. -/
def eligibleSource (file : Option Config) : Bool :=
  match file with
  | none => false
  | some c => !c.isEmpty && validate_connector_config_source c

/-- Environment of one sink batch run.  `files` lists, in directory order,
the load outcome of each discovered `.json` file.  `procCall i` is the
behaviour of the `create_stream_processor` call site for file `i`: the
source code passes eleven arguments to the five-parameter function
(src/confluent_config_to_asp/create_sink_processors.py lines 195-207 against
src/asp_utils/api_client.py lines 205-211), so the faithful behaviour is
`Except.error .typeError`; the parameter keeps the orchestrator model
agnostic of the callee so the intended boolean return can be studied too. -/
structure SinkEnv where
  authOk : Bool
  folderExists : Bool
  folderIsDir : Bool
  files : List (Option Config)
  mongoCLI : CmdOutcome
  kafkaCLI : CmdOutcome
  procCall : Nat → Except PyError Bool

/-- Environment of one source batch run; additionally carries the per-file
REST outcome consumed by `create_topic`. -/
structure SourceEnv where
  authOk : Bool
  folderExists : Bool
  folderIsDir : Bool
  files : List (Option Config)
  mongoCLI : CmdOutcome
  kafkaCLI : CmdOutcome
  topicHttp : Nat → HttpResult
  procCall : Nat → Except PyError Bool

/-- Observable result of a batch run: the shared-connection flags, per
processed file whether the stream-processor call site was reached
(`attempts`, one entry per file the loop actually iterated), the success
counter, and whether an exception escaped the loop. -/
structure RunResult where
  mongoCreated : Bool
  mongoWasCreated : Bool
  kafkaCreated : Bool
  kafkaWasCreated : Bool
  attempts : List Bool
  procSuccessCount : Nat
  raised : Bool

/-- The empty result of a run that returned before the per-file loop. -/
def emptyRun : RunResult :=
  ⟨false, false, false, false, [], 0, false⟩

/-- The sink per-file loop (src/confluent_config_to_asp/create_sink_processors.py
lines 167-212).  Each file: load (falsy ⇒ `continue`), validate
(`continue` on failure), offset-reset guard (`continue` on failure), then
`if mongodb_connection_created and kafka_connection_created:` invoke the
stream-processor call site, else skip with a warning.  An exception raised
by the call site propagates, ending the loop. -/
def sinkLoop (gate : Bool) (procCall : Nat → Except PyError Bool) :
    List (Option Config) → Nat → List Bool × Nat × Bool
  | [], _ => ([], 0, false)
  | file :: rest, i =>
      if eligibleSink file then
        if gate then
          match procCall i with
          | .error _ => ([true], 0, true)
          | .ok ok =>
              let r := sinkLoop gate procCall rest (i + 1)
              (true :: r.1, (if ok then 1 else 0) + r.2.1, r.2.2)
        else
          let r := sinkLoop gate procCall rest (i + 1)
          (false :: r.1, r.2.1, r.2.2)
      else
        let r := sinkLoop gate procCall rest (i + 1)
        (false :: r.1, r.2.1, r.2.2)

/-- Embedding of the sink `process_connector_configs`
(src/confluent_config_to_asp/create_sink_processors.py lines 101-226):
auth gate, folder checks, discovery, seed selection (first file that loads
truthy and validates), one MongoDB connection call, one Kafka connection
call only when a seed exists, then the per-file loop gated on both
connection success flags. -/
def process_connector_configs_sink (env : SinkEnv) : RunResult :=
  if !env.authOk then emptyRun
  else if !env.folderExists then emptyRun
  else if !env.folderIsDir then emptyRun
  else if env.files.isEmpty then emptyRun
  else
    let seed := env.files.find? (fun f => configTruthy f &&
      (match f with | some c => validate_connector_config_sink c | none => false))
    let m := create_mongodb_connection env.mongoCLI
    let k := match seed with
      | some _ => create_kafka_connection env.kafkaCLI
      | none => (false, false)
    let r := sinkLoop (m.1 && k.1) env.procCall env.files 0
    ⟨m.1, m.2, k.1, k.2, r.1, r.2.1, r.2.2⟩

/-- The source per-file loop
(src/confluent_config_to_asp/create_source_processors.py lines 140-201).
Each file: load and validate (`continue` on failure), call `create_topic`;
only if the topic call succeeded and the Kafka connection flag is set and
the MongoDB connection flag is set is the stream-processor call site
reached.  An exception from the call site propagates. -/
def sourceLoop (mongoOk kafkaOk : Bool) (topicHttp : Nat → HttpResult)
    (procCall : Nat → Except PyError Bool) :
    List (Option Config) → Nat → List Bool × Nat × Bool
  | [], _ => ([], 0, false)
  | file :: rest, i =>
      if eligibleSource file then
        if create_topic (topicHttp i) && kafkaOk && mongoOk then
          match procCall i with
          | .error _ => ([true], 0, true)
          | .ok ok =>
              let r := sourceLoop mongoOk kafkaOk topicHttp procCall rest (i + 1)
              (true :: r.1, (if ok then 1 else 0) + r.2.1, r.2.2)
        else
          let r := sourceLoop mongoOk kafkaOk topicHttp procCall rest (i + 1)
          (false :: r.1, r.2.1, r.2.2)
      else
        let r := sourceLoop mongoOk kafkaOk topicHttp procCall rest (i + 1)
        (false :: r.1, r.2.1, r.2.2)

/-- Embedding of the source `process_connector_configs`
(src/confluent_config_to_asp/create_source_processors.py lines 72-216):
same prelude as the sink orchestrator, then the source per-file loop. -/
def process_connector_configs_source (env : SourceEnv) : RunResult :=
  if !env.authOk then emptyRun
  else if !env.folderExists then emptyRun
  else if !env.folderIsDir then emptyRun
  else if env.files.isEmpty then emptyRun
  else
    let seed := env.files.find? (fun f => configTruthy f &&
      (match f with | some c => validate_connector_config_source c | none => false))
    let m := create_mongodb_connection env.mongoCLI
    let k := match seed with
      | some _ => create_kafka_connection env.kafkaCLI
      | none => (false, false)
    let r := sourceLoop m.1 k.1 env.topicHttp env.procCall env.files 0
    ⟨m.1, m.2, k.1, k.2, r.1, r.2.1, r.2.2⟩

/-- The faithful behaviour of the orchestrators' `create_stream_processor`
call sites: both pass about eleven arguments
(src/confluent_config_to_asp/create_sink_processors.py lines 195-207,
src/confluent_config_to_asp/create_source_processors.py lines 183-194)
to a function defined with five parameters
(src/asp_utils/api_client.py lines 205-211), so in Python the call raises
`TypeError` before the callee body runs. -/
def actual_create_stream_processor_call : Nat → Except PyError Bool :=
  fun _ => .error .typeError

/-- Whether every sink connector file strictly before position `t` fails
its per-file checks, so that none of them reached the (batch-aborting)
stream-processor call site. -/
def noEarlierSinkEligible : List (Option Config) → Nat → Bool
  | _, 0 => true
  | [], _ + 1 => true
  | file :: rest, t + 1 => !eligibleSink file && noEarlierSinkEligible rest t

/-- Whether every source connector file strictly before position `t`
(whose topic call consumes oracle index `i0`, `i0 + 1`, ...) fails its
per-file checks or its topic creation, so that none of them reached the
(batch-aborting) stream-processor call site. -/
def noEarlierSourceEligible (topicHttp : Nat → HttpResult) :
    List (Option Config) → Nat → Nat → Bool
  | _, _, 0 => true
  | [], _, _ + 1 => true
  | file :: rest, i0, t + 1 =>
      !(eligibleSource file && create_topic (topicHttp i0))
        && noEarlierSourceEligible topicHttp rest (i0 + 1) t

/-! ## text_to_processor/session_manager.py

A session folder is modelled by the list of filenames it contains, in
creation order.  Timestamps are threaded in as values where the code embeds
`datetime.now()` output. -/

/-- Model of Python `f"{n:03d}"`: the decimal representation left-padded
with zeros to width at least three. -/
def pad3 (n : Nat) : String :=
  let s := toString n
  if s.length < 3 then String.mk (List.replicate (3 - s.length) '0') ++ s else s

/-- Model of `Path.glob("*.json")` on a session folder: the filenames
ending in `.json`, in folder order. -/
def globJson (files : List String) : List String :=
  files.filter (fun name => decide (".json".data <:+ name.data))

/-- The non-metadata config files of a session folder, as computed at both
counting sites (src/text_to_processor/session_manager.py lines 102-105 and
153): glob `*.json`, then drop `session_info.json`. -/
def sessionConfigFiles (files : List String) : List String :=
  (globJson files).filter (fun name => name ≠ "session_info.json")

/-- Embedding of `SessionManager.get_next_config_filename`
(src/text_to_processor/session_manager.py lines 89-112): count the
existing non-metadata `.json` files, add one, and format
`f"{next_num:03d}_{prefix}.json"`. -/
def get_next_config_filename (files : List String) (pfx : String) : String :=
  pad3 ((sessionConfigFiles files).length + 1) ++ "_" ++ pfx ++ ".json"

/-- Contents of a session folder straight after `_create_new_session`
(src/text_to_processor/session_manager.py lines 52-78): only the metadata
record exists. -/
def freshSessionFiles : List String :=
  ["session_info.json"]

/-- Python `dict[k] = v` on an insertion-ordered association list holding
no duplicate key: replace the value in place if the key is present,
otherwise append the pair. -/
def pyInsert : Config → String → JValue → Config
  | [], k, v => [(k, v)]
  | (k', v') :: rest, k, v =>
      if k' = k then (k, v) :: rest else (k', v') :: pyInsert rest k v

/-- Python `{**base, **entries}` and `base.update(entries)`: insert the
entries of the right operand into the left one in order, later keys
overriding earlier values while keeping their original position. -/
def pyExtend (base : Config) (entries : Config) : Config :=
  entries.foldl (fun acc kv => pyInsert acc kv.1 kv.2) base

/-- The artifact contents built by `SessionManager.create_config_file`
(src/text_to_processor/session_manager.py lines 129-135): the generated
metadata dict (`created_at`, `session_id`, `config_type`) merged with the
caller's `config_data`, the caller's entries coming second. -/
def config_with_metadata (now session_id pfx : String) (config_data : Config) : Config :=
  pyExtend
    [ ("created_at", .str now),
      ("session_id", .str session_id),
      ("config_type", .str pfx) ]
    config_data

/-- The file-list effect of `SessionManager.create_config_file`
(src/text_to_processor/session_manager.py lines 114-145): compute the next
auto-numbered filename, write that file into the session folder, and
return the new folder contents together with the filename.  The metadata
rewrite touches only `session_info.json`, which is already present. -/
def create_config_file (files : List String) (pfx : String) :
    List String × String :=
  let filename := get_next_config_filename files pfx
  (files ++ [filename], filename)

/-- On-disk state of the session metadata record when
`_update_session_metadata` runs: absent, present but not valid JSON, or
present with parsed contents. -/
inductive MetaFile where
  | missing
  | corrupt
  | valid (metadata : Config)

/-- Embedding of `SessionManager._update_session_metadata`
(src/text_to_processor/session_manager.py lines 147-169): when the
metadata file exists it is parsed with `json.load` — a corrupt file makes
the parse raise and the exception propagates, there is no handler; when it
does not exist the metadata starts empty.  The parsed dict is then updated
with `config_count` and `updated_at` and written back. -/
def update_session_metadata (metaFile : MetaFile) (config_count : Nat)
    (now : String) : Except PyError Config :=
  match metaFile with
  | .corrupt => .error .jsonDecodeError
  | .missing =>
      .ok (pyExtend []
        [("config_count", .num config_count), ("updated_at", .str now)])
  | .valid metadata =>
      .ok (pyExtend metadata
        [("config_count", .num config_count), ("updated_at", .str now)])

/-! ## Spec-side definitions

These definitions follow the specification's words and are compared with
the embeddings above in the refinement claims. -/

/-- Case-insensitive substring containment, as the spec words it: the
needle occurs in the haystack when both are compared without case. -/
def caseInsensitiveContains (hay needle : String) : Bool :=
  decide ((needle.data.map Char.toLower) <:+: (hay.data.map Char.toLower))

/-- Classification demanded by the spec for a command-line-backed
connection provisioner: exit 0 gives `(true, true)`; non-zero exit with an
existence marker (`"already exists"` or `"duplicate"`, case-insensitively)
in stderr gives `(true, false)`; non-zero exit with neither marker gives
`(false, false)`; timeout and unexpected exceptions give `(false, false)`. -/
def specConnectionClassification (outcome : CmdOutcome) : Bool × Bool :=
  match outcome with
  | .completed returncode _ stderr =>
      if returncode = 0 then (true, true)
      else if caseInsensitiveContains stderr "already exists"
              || caseInsensitiveContains stderr "duplicate" then (true, false)
      else (false, false)
  | .timeout => (false, false)
  | .exn => (false, false)

/-- Whether a parsed response body carries the vendor error code 40002, as
worded in the spec for topic provisioning. -/
def bodyCarries40002 (body : Option Config) : Bool :=
  match body with
  | some fields =>
      match List.lookup "error_code" fields with
      | some (.num code) => code = 40002
      | _ => false
  | none => false

/-- Success condition demanded by the spec for topic provisioning:
HTTP 201, or HTTP 409, or a non-201/non-409 status whose JSON body carries
error code 40002; every other outcome, network errors and unexpected
exceptions included, is failure. -/
def specTopicSuccess (result : HttpResult) : Bool :=
  match result with
  | .response status body =>
      decide (status = 201) || decide (status = 409)
        || (!decide (status = 201) && !decide (status = 409)
              && bodyCarries40002 body)
  | .requestException => false
  | .exn => false

/-- The property claimed of the normalized stream-engine URL: it ends with
exactly one trailing `'/'` (a final slash not preceded by another slash). -/
def endsWithExactlyOneSlash (s : String) : Bool :=
  match s.data.reverse with
  | '/' :: rest => rest.head? != some '/'
  | _ => false

/-! ## Concrete inputs used by witnesses and counterexamples -/

/-- A nine-field main config whose values are all empty strings. -/
def mainConfigAllEmptyValues : Config :=
  mainConfigRequiredFields.map (fun field => (field, JValue.str ""))

/-- A connector config that passes the sink validation. -/
def validSinkConnectorConfig : Config :=
  [ ("kafka.api.key", .str "k"), ("kafka.api.secret", .str "s"),
    ("input.data.format", .str "JSON"), ("connection.user", .str "u"),
    ("connection.password", .str "p"), ("topics", .str "t"),
    ("database", .str "d"), ("collection", .str "c") ]

/-- A connector config that passes the source validation. -/
def validSourceConnectorConfig : Config :=
  [ ("kafka.api.key", .str "k"), ("kafka.api.secret", .str "s"),
    ("topic.prefix", .str "pfx"), ("database", .str "d"),
    ("collection", .str "c"), ("connection.user", .str "u"),
    ("connection.password", .str "p") ]

/-- A sink batch whose shared connections both succeed while its first
file fails to load: file 0 is never provisioned although both shared
connections are in a created state. -/
def sinkEnvInvalidFirstFile : SinkEnv :=
  ⟨true, true, true, [none, some validSinkConnectorConfig],
    .completed 0 "" "", .completed 0 "" "", fun _ => .ok true⟩

/-- A sink batch whose first file fails to load and whose second is valid,
with both shared connections succeeding, run against the faithful
`create_stream_processor` call site. -/
def sinkEnvMalformedThenValidActual : SinkEnv :=
  ⟨true, true, true, [none, some validSinkConnectorConfig],
    .completed 0 "" "", .completed 0 "" "",
    actual_create_stream_processor_call⟩

/-- A source batch whose first file fails to load and whose second is
valid, with both shared connections succeeding and topic creation
returning 201, run against the faithful `create_stream_processor` call
site. -/
def sourceEnvMalformedThenValidActual : SourceEnv :=
  ⟨true, true, true, [none, some validSourceConnectorConfig],
    .completed 0 "" "", .completed 0 "" "",
    fun _ => .response 201 none, actual_create_stream_processor_call⟩

/-- A two-file sink batch of valid files with both shared connections
succeeding, run against the faithful `create_stream_processor` call site. -/
def sinkEnvTwoValidFiles : SinkEnv :=
  ⟨true, true, true, [some validSinkConnectorConfig, some validSinkConnectorConfig],
    .completed 0 "" "", .completed 0 "" "",
    actual_create_stream_processor_call⟩

/-! ## Supporting lemmas -/

theorem containsInLower_eq_ci (hay needle : String)
    (h : needle.data.map Char.toLower = needle.data) :
    containsInLower hay needle = caseInsensitiveContains hay needle := by
  simp only [containsInLower, caseInsensitiveContains, lowerStr, h]

theorem stderrIndicatesExists_eq_spec (stderr : String) :
    stderrIndicatesExists stderr
      = (caseInsensitiveContains stderr "already exists"
          || caseInsensitiveContains stderr "duplicate") := by
  simp only [stderrIndicatesExists]
  rw [containsInLower_eq_ci _ _ (by decide), containsInLower_eq_ci _ _ (by decide)]

/-! ## Claim C3 -/

/-- C3: for every invocation of a command-line-backed connection
provisioner, exit status 0 yields `(true, true)`; a non-zero exit whose
stderr contains, case-insensitively, "already exists" or "duplicate"
yields `(true, false)`; a non-zero exit with neither marker yields
`(false, false)`; timeouts and unexpected exceptions yield
`(false, false)`; and no other return value is possible. -/
theorem c3_cli_provisioner_classification :
    (∀ outcome, create_mongodb_connection outcome = specConnectionClassification outcome)
    ∧ (∀ outcome, create_kafka_connection outcome = specConnectionClassification outcome)
    ∧ (∀ outcome, create_mongodb_connection outcome = (true, true)
        ∨ create_mongodb_connection outcome = (true, false)
        ∨ create_mongodb_connection outcome = (false, false)) := by
  refine ⟨?_, ?_, ?_⟩
  · intro outcome
    cases outcome with
    | completed returncode stdout stderr =>
        simp only [create_mongodb_connection, specConnectionClassification,
          stderrIndicatesExists_eq_spec]
    | timeout => rfl
    | exn => rfl
  · intro outcome
    cases outcome with
    | completed returncode stdout stderr =>
        simp only [create_kafka_connection, specConnectionClassification,
          stderrIndicatesExists_eq_spec]
    | timeout => rfl
    | exn => rfl
  · intro outcome
    cases outcome with
    | completed returncode stdout stderr =>
        simp only [create_mongodb_connection]
        split_ifs <;> simp
    | timeout => right; right; rfl
    | exn => right; right; rfl

/-! ## Claim C5 -/

/-- C5: `create_topic` returns true exactly when the response status is
201, or 409, or a non-201/non-409 status whose JSON body carries
error_code 40002; in particular any 409 response yields true; every other
outcome, network errors and unexpected exceptions included, yields false. -/
theorem c5_create_topic_success_conditions :
    (∀ result, create_topic result = specTopicSuccess result)
    ∧ (∀ body, create_topic (.response 409 body) = true) := by
  constructor
  · intro result
    cases result with
    | response status body =>
        simp only [create_topic, specTopicSuccess, bodyCarries40002]
        split_ifs with h1 h2
        · simp [h1]
        · simp [h1, h2]
        · simp [h1, h2]
    | requestException => rfl
    | exn => rfl
  · intro body
    rfl

/-! ## Claim C9 -/

/-- C9: the sink pipeline builder applied to kafka connection "kc", topics
["t1","t2"], mongodb connection "mc", database "d", collection "c" and
offset reset "earliest" returns exactly the two-stage sequence reading
from "kc" with both topics and `config.auto_offset_reset = "earliest"`,
then merging into `{db: "d", coll: "c"}` via "mc"; with no offset reset
supplied the source stage carries no config entry. -/
theorem c9_sink_pipeline_shape :
    (create_simple_kafka_topic_to_mongodb_pipeline "kc"
        (.arr [.str "t1", .str "t2"]) "mc" "d" "c" (some "earliest")
      = [ .obj [("$source", .obj
            [ ("connectionName", .str "kc"),
              ("topic", .arr [.str "t1", .str "t2"]),
              ("config", .obj [("auto_offset_reset", .str "earliest")]) ])],
          .obj [("$merge", .obj
            [ ("into", .obj
                [ ("connectionName", .str "mc"),
                  ("db", .str "d"),
                  ("coll", .str "c") ]) ])] ])
    ∧ (∀ kc topics mc db coll,
        create_simple_kafka_topic_to_mongodb_pipeline kc topics mc db coll none
          = [ .obj [("$source", .obj
                [ ("connectionName", .str kc), ("topic", topics) ])],
              .obj [("$merge", .obj
                [ ("into", .obj
                    [ ("connectionName", .str mc),
                      ("db", .str db),
                      ("coll", .str coll) ]) ])] ]) := by
  exact ⟨rfl, fun kc topics mc db coll => rfl⟩

/-! ## Claim C8 (corrected) -/

/-- C8 counterexample: the claim demands exactly one trailing separator
for every input, but a URL already ending in two slashes is left
unchanged by the source's normalization, so its result does not end in
exactly one slash. -/
theorem c8_counterexample_double_slash_preserved :
    normalize_stream_processor_url "mongodb://host//" = "mongodb://host//"
    ∧ endsWithExactlyOneSlash
        (normalize_stream_processor_url "mongodb://host//") = false := by
  constructor
  · rfl
  · rfl

/-- C8 amended: before use the stream-engine URL is normalized to end with
at least one trailing `'/'`: a slash is appended exactly when the URL does
not already end with one, and a URL already ending in one or more slashes
passes through unchanged (so several trailing slashes are preserved). -/
theorem c8_url_normalization_at_least_one_slash (url : String) :
    endsWithSlash (normalize_stream_processor_url url) = true
    ∧ (endsWithSlash url = false →
        normalize_stream_processor_url url = url ++ "/")
    ∧ (endsWithSlash url = true →
        normalize_stream_processor_url url = url) := by
  by_cases h : endsWithSlash url = true
  · refine ⟨?_, ?_, ?_⟩
    · simp [normalize_stream_processor_url, h]
    · intro hfalse; rw [h] at hfalse; exact absurd hfalse (by decide)
    · intro _; simp [normalize_stream_processor_url, h]
  · have hn : endsWithSlash url = false := by
      cases hc : endsWithSlash url
      · rfl
      · exact absurd hc h
    refine ⟨?_, ?_, ?_⟩
    · have hrw : normalize_stream_processor_url url = url ++ "/" := by
        simp [normalize_stream_processor_url, hn]
      rw [hrw]
      simp only [endsWithSlash, String.data_append, decide_eq_true_eq]
      exact List.getLast?_concat _
    · intro _; simp [normalize_stream_processor_url, hn]
    · intro htrue; rw [hn] at htrue; exact absurd htrue (by decide)

/-- C8 witness: a URL without a trailing slash gets exactly one appended. -/
theorem c8_witness :
    normalize_stream_processor_url "mongodb://host" = "mongodb://host" ++ "/" :=
  (c8_url_normalization_at_least_one_slash "mongodb://host").2.1 (by decide)

/-! ## Claim C4 (corrected) -/

/-- C4 counterexample: a main config whose nine required fields are all
present but empty still validates as true, although the claim demands
false for any empty value. -/
theorem c4_counterexample_empty_values_validate :
    List.lookup "confluent-cluster-id" mainConfigAllEmptyValues
        = some (JValue.str "")
    ∧ validate_main_config mainConfigAllEmptyValues = true := by
  constructor
  · rfl
  · rfl

/-- C4 amended: main-config validation returns true exactly when every one
of the nine required fields is present as a key, arbitrary extra fields
being ignored; the values of those fields are never inspected, so empty
values still validate. -/
theorem c4_main_config_presence_only (config : Config) :
    validate_main_config config = true ↔
      (hasKey config "confluent-cluster-id" = true
        ∧ hasKey config "confluent-rest-endpoint" = true
        ∧ hasKey config "mongodb-stream-processor-instance-url" = true
        ∧ hasKey config "stream-processor-prefix" = true
        ∧ hasKey config "kafka-connection-name" = true
        ∧ hasKey config "mongodb-connection-name" = true
        ∧ hasKey config "mongodb-cluster-name" = true
        ∧ hasKey config "mongodb-group-id" = true
        ∧ hasKey config "mongodb-tenant-name" = true) := by
  simp [validate_main_config, mainConfigRequiredFields, and_assoc]

/-- C4 witness: the amended statement evaluated on the all-empty-values
config, whose nine keys are all present. -/
theorem c4_witness : validate_main_config mainConfigAllEmptyValues = true :=
  (c4_main_config_presence_only mainConfigAllEmptyValues).mpr
    ⟨rfl, rfl, rfl, rfl, rfl, rfl, rfl, rfl, rfl⟩

/-! ## Claim C7 (corrected) -/

/-- C7 counterexample: with the metadata record present but corrupt, the
metadata update raises the JSON parse error instead of treating the record
as empty — the artifact write does not complete cleanly. -/
theorem c7_counterexample_corrupt_metadata_raises :
    update_session_metadata .corrupt 1 "2025-01-20T00:00:00"
      = .error .jsonDecodeError := rfl

/-- C7 amended: only a missing metadata record is treated as empty and
overwritten; a present-but-corrupt record makes the update raise a JSON
parse error that propagates to the caller of the artifact write, and a
readable record is updated in place. -/
theorem c7_metadata_update_behaviour (config_count : Nat) (now : String)
    (metadata : Config) :
    update_session_metadata .missing config_count now
      = .ok [("config_count", .num config_count), ("updated_at", .str now)]
    ∧ update_session_metadata .corrupt config_count now
      = .error .jsonDecodeError
    ∧ update_session_metadata (.valid metadata) config_count now
      = .ok (pyExtend metadata
          [("config_count", .num config_count), ("updated_at", .str now)]) := by
  refine ⟨?_, rfl, rfl⟩
  rfl

/-! ## Association-list lemmas for the Python dict model -/

theorem lookup_cons (k : String) (e : String × JValue) (rest : Config) :
    List.lookup k (e :: rest)
      = if k = e.1 then some e.2 else List.lookup k rest := by
  by_cases h : k = e.1
  · have hbe : (k == e.1) = true := beq_iff_eq.mpr h
    simp [List.lookup, hbe, h]
  · have hbe : (k == e.1) = false := beq_eq_false_iff_ne.mpr h
    simp [List.lookup, hbe, h]

theorem lookup_pyInsert_self (d : Config) (k : String) (v : JValue) :
    List.lookup k (pyInsert d k v) = some v := by
  induction d with
  | nil => simp [pyInsert, lookup_cons]
  | cons e rest ih =>
      by_cases h : e.1 = k
      · simp [pyInsert, h, lookup_cons]
      · simp only [pyInsert, h, if_false]
        rw [show ((e.1, e.2) : String × JValue) = e from rfl, lookup_cons,
          if_neg (Ne.symm h)]
        exact ih

theorem lookup_pyInsert_ne (d : Config) (k k2 : String) (v : JValue)
    (h : k ≠ k2) : List.lookup k (pyInsert d k2 v) = List.lookup k d := by
  induction d with
  | nil => simp [pyInsert, lookup_cons, h]
  | cons e rest ih =>
      by_cases he : e.1 = k2
      · simp only [pyInsert, he, if_true]
        rw [lookup_cons, lookup_cons, he, if_neg h, if_neg h]
      · simp only [pyInsert, he, if_false]
        rw [show ((e.1, e.2) : String × JValue) = e from rfl, lookup_cons,
          lookup_cons, ih]

theorem lookup_pyExtend_of_absent (entries : Config) :
    ∀ (base : Config) (k : String), (∀ e ∈ entries, e.1 ≠ k) →
      List.lookup k (pyExtend base entries) = List.lookup k base := by
  induction entries with
  | nil => intro base k _; rfl
  | cons e rest ih =>
      intro base k h
      have hrest : ∀ x ∈ rest, x.1 ≠ k := fun x hx => h x (by simp [hx])
      have hek : e.1 ≠ k := h e (by simp)
      show List.lookup k (pyExtend (pyInsert base e.1 e.2) rest) = _
      rw [ih (pyInsert base e.1 e.2) k hrest,
        lookup_pyInsert_ne base k e.1 e.2 (Ne.symm hek)]

theorem lookup_pyExtend_of_mem (entries : Config) :
    ∀ (base : Config) (k : String) (v : JValue),
      (entries.map Prod.fst).Nodup →
      List.lookup k entries = some v →
      List.lookup k (pyExtend base entries) = some v := by
  induction entries with
  | nil => intro base k v _ hl; simp [List.lookup] at hl
  | cons e rest ih =>
      intro base k v hnd hl
      have hnd' : (rest.map Prod.fst).Nodup := (List.nodup_cons.mp hnd).2
      have hnotin : e.1 ∉ rest.map Prod.fst := (List.nodup_cons.mp hnd).1
      by_cases hk : k = e.1
      · have hv : e.2 = v := by
          rw [lookup_cons, if_pos hk] at hl
          exact Option.some.inj hl
        have habsent : ∀ x ∈ rest, x.1 ≠ k := by
          intro x hx hxk
          exact hnotin (List.mem_map.mpr ⟨x, hx, hxk.trans hk⟩)
        show List.lookup k (pyExtend (pyInsert base e.1 e.2) rest) = some v
        rw [lookup_pyExtend_of_absent rest (pyInsert base e.1 e.2) k habsent,
          hk, lookup_pyInsert_self, hv]
      · have hl' : List.lookup k rest = some v := by
          rw [lookup_cons, if_neg hk] at hl
          exact hl
        exact ih (pyInsert base e.1 e.2) k v hnd' hl'

theorem pyInsert_of_absent (d : Config) (k : String) (v : JValue)
    (h : ∀ e ∈ d, e.1 ≠ k) : pyInsert d k v = d ++ [(k, v)] := by
  induction d with
  | nil => rfl
  | cons e rest ih =>
      have hek : e.1 ≠ k := h e (by simp)
      have hrest : ∀ x ∈ rest, x.1 ≠ k := fun x hx => h x (by simp [hx])
      simp only [pyInsert, hek, if_false, List.cons_append]
      rw [show (e.1, e.2) = e from rfl, ih hrest]

theorem pyExtend_of_disjoint (entries : Config) :
    ∀ (base : Config), (entries.map Prod.fst).Nodup →
      (∀ e ∈ entries, ∀ b ∈ base, e.1 ≠ b.1) →
      pyExtend base entries = base ++ entries := by
  induction entries with
  | nil => intro base _ _; simp [pyExtend]
  | cons e rest ih =>
      intro base hnd hdisj
      have hnd' : (rest.map Prod.fst).Nodup := (List.nodup_cons.mp hnd).2
      have hnotin : e.1 ∉ rest.map Prod.fst := (List.nodup_cons.mp hnd).1
      have hbase : ∀ b ∈ base, e.1 ≠ b.1 := fun b hb => hdisj e (by simp) b hb
      have hins : pyInsert base e.1 e.2 = base ++ [(e.1, e.2)] :=
        pyInsert_of_absent base e.1 e.2 (fun b hb => Ne.symm (hbase b hb))
      show pyExtend (pyInsert base e.1 e.2) rest = _
      rw [hins, ih (base ++ [(e.1, e.2)]) hnd' ?_]
      · simp
      · intro x hx b hb
        rcases List.mem_append.mp hb with hb | hb
        · exact hdisj x (by simp [hx]) b hb
        · have hbx : b = (e.1, e.2) := by simpa using hb
          rw [hbx]
          intro hxe
          exact hnotin (hxe ▸ List.mem_map_of_mem Prod.fst hx)

/-! ## Claim C10 -/

/-- C10: in the artifact contents built by `create_config_file`, any key of
the caller's `config_data` — the generated `created_at`, `session_id` and
`config_type` included — keeps the caller's value, because the caller's
entries are merged after the generated metadata; and when `config_data`
carries none of those three keys the written contents are exactly the
generated metadata followed by the caller's entries unchanged. -/
theorem c10_caller_metadata_override (now sid pfx : String) (data : Config)
    (hnd : (data.map Prod.fst).Nodup) :
    (∀ k v, List.lookup k data = some v →
        List.lookup k (config_with_metadata now sid pfx data) = some v)
    ∧ ((∀ e ∈ data, e.1 ≠ "created_at" ∧ e.1 ≠ "session_id" ∧ e.1 ≠ "config_type") →
        config_with_metadata now sid pfx data
          = [ ("created_at", .str now), ("session_id", .str sid),
              ("config_type", .str pfx) ] ++ data) := by
  constructor
  · intro k v hl
    exact lookup_pyExtend_of_mem data _ k v hnd hl
  · intro hfree
    apply pyExtend_of_disjoint data _ hnd
    intro e he b hb
    rcases hfree e he with ⟨h1, h2, h3⟩
    simp only [List.mem_cons, List.not_mem_nil, or_false] at hb
    rcases hb with rfl | rfl | rfl
    · exact h1
    · exact h2
    · exact h3

/-- C10 witness: with a caller dict that redefines `config_type`, the
written artifact carries the caller's value. -/
theorem c10_witness :
    List.lookup "config_type"
        (config_with_metadata "2025-01-20T00:00:00" "2025-01-20_14-30-15" "test"
          [("config_type", JValue.str "override"), ("x", JValue.num 1)])
      = some (JValue.str "override") :=
  (c10_caller_metadata_override "2025-01-20T00:00:00" "2025-01-20_14-30-15" "test"
      [("config_type", JValue.str "override"), ("x", JValue.num 1)]
      (by decide)).1 "config_type" (JValue.str "override") rfl

/-! ## Session filename lemmas -/

theorem filter_single {α : Type} (pred : α → Bool) (a : α) (h : pred a = true) :
    List.filter pred [a] = [a] := by
  simp [List.filter, h]

theorem json_suffix_of_numbered (n : Nat) (p : String) :
    decide (".json".data <:+ (pad3 n ++ "_" ++ p ++ ".json").data) = true := by
  rw [decide_eq_true_eq,
    show (pad3 n ++ "_" ++ p ++ ".json").data
        = (pad3 n ++ "_" ++ p).data ++ ".json".data from String.data_append _ _]
  exact List.suffix_append _ _

theorem numbered_ne_session_info (n : Nat) (p : String)
    (h0 : ∃ t, (pad3 n).data = '0' :: t) :
    (pad3 n ++ "_" ++ p ++ ".json") ≠ "session_info.json" := by
  intro h
  obtain ⟨t, ht⟩ := h0
  have hd := congrArg String.data h
  simp only [String.data_append, ht, List.cons_append] at hd
  have hh := congrArg List.head? hd
  rw [List.head?_cons] at hh
  rw [show "session_info.json".data.head? = some 's' from rfl] at hh
  exact absurd (Option.some.inj hh) (by decide)

theorem sessionConfigFiles_append_numbered (files : List String) (n : Nat)
    (p : String) (h0 : ∃ t, (pad3 n).data = '0' :: t) :
    sessionConfigFiles (files ++ [pad3 n ++ "_" ++ p ++ ".json"])
      = sessionConfigFiles files ++ [pad3 n ++ "_" ++ p ++ ".json"] := by
  unfold sessionConfigFiles globJson
  rw [List.filter_append,
    filter_single (fun name => decide (".json".data <:+ name.data))
      (pad3 n ++ "_" ++ p ++ ".json") (json_suffix_of_numbered n p),
    List.filter_append,
    filter_single (fun name => decide (name ≠ "session_info.json"))
      (pad3 n ++ "_" ++ p ++ ".json")
      (by rw [decide_eq_true_eq]; exact numbered_ne_session_info n p h0)]

theorem create_config_file_step (files : List String) (p : String) (n : Nat)
    (h : (sessionConfigFiles files).length = n) :
    (create_config_file files p).2 = pad3 (n + 1) ++ "_" ++ p ++ ".json"
    ∧ (create_config_file files p).1
        = files ++ [pad3 (n + 1) ++ "_" ++ p ++ ".json"] := by
  constructor
  · show get_next_config_filename files p = _
    rw [get_next_config_filename, h]
  · show files ++ [get_next_config_filename files p] = _
    rw [get_next_config_filename, h]

/-! ## Claim C6 -/

/-- C6: creating three config files in a fresh session yields filenames
numbered 001, 002 and 003 regardless of the prefixes used — the number is
recomputed each call by counting existing non-metadata `.json` files — and
a forced new session resets the numbering to 001. -/
theorem c6_session_numbering (p1 p2 p3 p4 : String) :
    (create_config_file freshSessionFiles p1).2 = "001_" ++ p1 ++ ".json"
    ∧ (create_config_file (create_config_file freshSessionFiles p1).1 p2).2
        = "002_" ++ p2 ++ ".json"
    ∧ (create_config_file
          (create_config_file (create_config_file freshSessionFiles p1).1 p2).1
          p3).2
        = "003_" ++ p3 ++ ".json"
    ∧ (create_config_file freshSessionFiles p4).2 = "001_" ++ p4 ++ ".json" := by
  have hs0 : sessionConfigFiles freshSessionFiles = [] := by decide
  have hl0 : (sessionConfigFiles freshSessionFiles).length = 0 := by
    rw [hs0]; rfl
  obtain ⟨hf1, hs1⟩ := create_config_file_step freshSessionFiles p1 0 hl0
  have hc1 : sessionConfigFiles (create_config_file freshSessionFiles p1).1
      = [pad3 (0 + 1) ++ "_" ++ p1 ++ ".json"] := by
    rw [hs1, sessionConfigFiles_append_numbered _ _ _ ⟨['0', '1'], by decide⟩,
      hs0]
    rfl
  have hl1 : (sessionConfigFiles
      (create_config_file freshSessionFiles p1).1).length = 1 := by
    rw [hc1]; rfl
  obtain ⟨hf2, hs2⟩ :=
    create_config_file_step (create_config_file freshSessionFiles p1).1 p2 1 hl1
  have hc2 : sessionConfigFiles
      (create_config_file (create_config_file freshSessionFiles p1).1 p2).1
      = [pad3 (0 + 1) ++ "_" ++ p1 ++ ".json",
         pad3 (1 + 1) ++ "_" ++ p2 ++ ".json"] := by
    rw [hs2, sessionConfigFiles_append_numbered _ _ _ ⟨['0', '2'], by decide⟩,
      hc1]
    rfl
  have hl2 : (sessionConfigFiles
      (create_config_file (create_config_file freshSessionFiles p1).1 p2).1).length
      = 2 := by
    rw [hc2]; rfl
  obtain ⟨hf3, _⟩ := create_config_file_step
    (create_config_file (create_config_file freshSessionFiles p1).1 p2).1 p3 2 hl2
  obtain ⟨hf4, _⟩ := create_config_file_step freshSessionFiles p4 0 hl0
  refine ⟨?_, ?_, ?_, ?_⟩
  · rw [hf1, show pad3 (0 + 1) = "001" from by decide,
      show ("001" ++ "_" : String) = "001_" from by decide]
  · rw [hf2, show pad3 (1 + 1) = "002" from by decide,
      show ("002" ++ "_" : String) = "002_" from by decide]
  · rw [hf3, show pad3 (2 + 1) = "003" from by decide,
      show ("003" ++ "_" : String) = "003_" from by decide]
  · rw [hf4, show pad3 (0 + 1) = "001" from by decide,
      show ("001" ++ "_" : String) = "001_" from by decide]

/-! ## Batch-loop lemmas

Both per-file loops are analysed under the faithful behaviour of the
`create_stream_processor` call site (`actual_create_stream_processor_call`):
the first file that reaches the call raises, ending the loop. -/

theorem sinkLoop_actual_getD (gate : Bool) :
    ∀ (files : List (Option Config)) (i0 t : Nat), t < files.length →
      (sinkLoop gate actual_create_stream_processor_call files i0).1.getD t false
        = (eligibleSink (files.getD t none) && gate
            && noEarlierSinkEligible files t) := by
  cases gate with
  | false =>
      intro files
      induction files with
      | nil => intro i0 t ht; simp at ht
      | cons f rest ih =>
          intro i0 t ht
          cases t with
          | zero =>
              by_cases hf : eligibleSink f = true
              · simp [sinkLoop, hf]
              · simp [sinkLoop, hf]
          | succ u =>
              have hu : u < rest.length := Nat.lt_of_succ_lt_succ ht
              by_cases hf : eligibleSink f = true
              · simp only [sinkLoop, hf]
                simpa [noEarlierSinkEligible] using ih (i0 + 1) u hu
              · simp only [sinkLoop, hf]
                simpa [noEarlierSinkEligible, hf] using ih (i0 + 1) u hu
  | true =>
      intro files
      induction files with
      | nil => intro i0 t ht; simp at ht
      | cons f rest ih =>
          intro i0 t ht
          cases t with
          | zero =>
              by_cases hf : eligibleSink f = true
              · simp [sinkLoop, hf, actual_create_stream_processor_call,
                  noEarlierSinkEligible]
              · simp [sinkLoop, hf, noEarlierSinkEligible]
          | succ u =>
              have hu : u < rest.length := Nat.lt_of_succ_lt_succ ht
              by_cases hf : eligibleSink f = true
              · simp [sinkLoop, hf, actual_create_stream_processor_call,
                  noEarlierSinkEligible]
              · simp only [sinkLoop, hf]
                simpa [noEarlierSinkEligible, hf] using ih (i0 + 1) u hu

theorem sourceLoop_actual_getD (mo ka : Bool) (th : Nat → HttpResult) :
    ∀ (files : List (Option Config)) (i0 t : Nat), t < files.length →
      (sourceLoop mo ka th actual_create_stream_processor_call files i0).1.getD t false
        = (eligibleSource (files.getD t none)
            && (create_topic (th (i0 + t)) && ka && mo)
            && noEarlierSourceEligible th files i0 t) := by
  have proofGateFalse : ∀ (mo' ka' : Bool), (ka' && mo') = false →
      ∀ (files : List (Option Config)) (i0 t : Nat), t < files.length →
        (sourceLoop mo' ka' th actual_create_stream_processor_call files i0).1.getD t false
          = (eligibleSource (files.getD t none)
              && (create_topic (th (i0 + t)) && ka' && mo')
              && noEarlierSourceEligible th files i0 t) := by
    intro mo' ka' hkm files
    induction files with
    | nil => intro i0 t ht; simp at ht
    | cons f rest ih =>
        intro i0 t ht
        have hkm' : ∀ c : Bool, (c && ka' && mo') = false := by
          intro c
          cases c
          · simp
          · simpa using hkm
        cases t with
        | zero =>
            by_cases hf : eligibleSource f = true
            · simp [sourceLoop, hf, hkm' (create_topic (th i0)),
                hkm' (create_topic (th (i0 + 0)))]
            · simp [sourceLoop, hf]
        | succ u =>
            have hu : u < rest.length := Nat.lt_of_succ_lt_succ ht
            have hshift : i0 + (u + 1) = (i0 + 1) + u := by omega
            by_cases hf : eligibleSource f = true
            · rw [hshift]
              simpa [sourceLoop, hf, hkm' (create_topic (th i0)),
                hkm' (create_topic (th ((i0 + 1) + u))),
                noEarlierSourceEligible] using ih (i0 + 1) u hu
            · rw [hshift]
              simpa [sourceLoop, hf, hkm' (create_topic (th ((i0 + 1) + u))),
                noEarlierSourceEligible] using ih (i0 + 1) u hu
  cases mo with
  | false => exact proofGateFalse false ka (by simp)
  | true =>
      cases ka with
      | false => exact proofGateFalse true false (by simp)
      | true =>
          intro files
          induction files with
          | nil => intro i0 t ht; simp at ht
          | cons f rest ih =>
              intro i0 t ht
              cases t with
              | zero =>
                  by_cases hf : eligibleSource f = true
                  · by_cases hct : create_topic (th i0) = true
                    · simp [sourceLoop, hf, hct,
                        actual_create_stream_processor_call,
                        noEarlierSourceEligible]
                    · simp [sourceLoop, hf, hct, noEarlierSourceEligible]
                  · simp [sourceLoop, hf]
              | succ u =>
                  have hu : u < rest.length := Nat.lt_of_succ_lt_succ ht
                  have hshift : i0 + (u + 1) = (i0 + 1) + u := by omega
                  by_cases hf : eligibleSource f = true
                  · by_cases hct : create_topic (th i0) = true
                    · simp [sourceLoop, hf, hct,
                        actual_create_stream_processor_call,
                        noEarlierSourceEligible]
                    · rw [hshift]
                      simpa [sourceLoop, hf, hct, noEarlierSourceEligible]
                        using ih (i0 + 1) u hu
                  · rw [hshift]
                    simpa [sourceLoop, hf, noEarlierSourceEligible]
                      using ih (i0 + 1) u hu

/-! ## Claim C1 (corrected) -/

/-- C1 counterexample: in a sink batch whose two shared connections both
resolve to a created state, the first connector file — which fails to load
— is never submitted to stream-processor provisioning, refuting "attempted
iff both shared connections resolved, independent of the file's own
validity". -/
theorem c1_counterexample_invalid_file_not_attempted :
    (process_connector_configs_sink sinkEnvInvalidFirstFile).mongoCreated = true
    ∧ (process_connector_configs_sink sinkEnvInvalidFirstFile).kafkaCreated = true
    ∧ (process_connector_configs_sink sinkEnvInvalidFirstFile).attempts.getD 0 false
        = false := by
  exact ⟨rfl, rfl, rfl⟩

/-- C1 amended, stated over the faithful `create_stream_processor` call
site (which always raises, claim C2): stream-processor provisioning is
never attempted for a file when either shared connection failed; when both
shared connections resolved to a created-or-reused state, it is attempted
for a discovered file iff that file passes its own per-file checks (sink:
loads to a truthy dict, validates, carries an acceptable offset reset;
source additionally: its per-file topic creation succeeded) AND no earlier
file does — the one attempted call raises and aborts the loop, so no later
file is ever submitted.  The gate therefore depends on per-file outcomes,
not only on the shared connections. -/
theorem c1_gate_depends_on_file_eligibility
    (e : SinkEnv) (se : SourceEnv) (i j : Nat)
    (hec : e.procCall = actual_create_stream_processor_call)
    (hsc : se.procCall = actual_create_stream_processor_call)
    (hi : i < e.files.length) (hj : j < se.files.length) :
    ((process_connector_configs_sink e).attempts.getD i false
        = ((process_connector_configs_sink e).mongoCreated
            && (process_connector_configs_sink e).kafkaCreated
            && eligibleSink (e.files.getD i none)
            && noEarlierSinkEligible e.files i))
    ∧ ((process_connector_configs_source se).attempts.getD j false
        = ((process_connector_configs_source se).mongoCreated
            && (process_connector_configs_source se).kafkaCreated
            && (create_topic (se.topicHttp j)
                  && eligibleSource (se.files.getD j none))
            && noEarlierSourceEligible se.topicHttp se.files 0 j)) := by
  constructor
  · obtain ⟨auth, fex, fdir, files, mcli, kcli, pc⟩ := e
    simp only at hec hi
    subst hec
    cases auth with
    | false => simp [process_connector_configs_sink, emptyRun]
    | true =>
        cases fex with
        | false => simp [process_connector_configs_sink, emptyRun]
        | true =>
            cases fdir with
            | false => simp [process_connector_configs_sink, emptyRun]
            | true =>
                cases hfe : files.isEmpty with
                | true =>
                    cases files with
                    | nil => simp at hi
                    | cons a l => simp at hfe
                | false =>
                    simp only [process_connector_configs_sink, Bool.not_true,
                      Bool.false_eq_true, if_false, hfe]
                    rw [sinkLoop_actual_getD _ files 0 i hi]
                    have hb : ∀ g e n : Bool, ((e && g) && n) = ((g && e) && n) := by
                      decide
                    exact hb _ _ _
  · obtain ⟨auth, fex, fdir, files, mcli, kcli, th, pc⟩ := se
    simp only at hsc hj
    subst hsc
    cases auth with
    | false => simp [process_connector_configs_source, emptyRun]
    | true =>
        cases fex with
        | false => simp [process_connector_configs_source, emptyRun]
        | true =>
            cases fdir with
            | false => simp [process_connector_configs_source, emptyRun]
            | true =>
                cases hfe : files.isEmpty with
                | true =>
                    cases files with
                    | nil => simp at hj
                    | cons a l => simp at hfe
                | false =>
                    simp only [process_connector_configs_source, Bool.not_true,
                      Bool.false_eq_true, if_false, hfe]
                    rw [sourceLoop_actual_getD _ _ th files 0 j hj]
                    rw [show (0 : Nat) + j = j from by omega]
                    have hbs : ∀ e c k m n : Bool,
                        ((e && (c && k && m)) && n)
                          = (((m && k) && (c && e)) && n) := by
                      decide
                    exact hbs _ _ _ _ _

/-- C1 witness: the amended statement evaluated at file index 1 of
two-file sink and source batches (malformed first file, valid second,
both shared connections created) run against the faithful call site. -/
theorem c1_witness :
    ((process_connector_configs_sink sinkEnvMalformedThenValidActual).attempts.getD 1 false
        = ((process_connector_configs_sink sinkEnvMalformedThenValidActual).mongoCreated
            && (process_connector_configs_sink sinkEnvMalformedThenValidActual).kafkaCreated
            && eligibleSink (sinkEnvMalformedThenValidActual.files.getD 1 none)
            && noEarlierSinkEligible sinkEnvMalformedThenValidActual.files 1))
    ∧ ((process_connector_configs_source sourceEnvMalformedThenValidActual).attempts.getD 1 false
        = ((process_connector_configs_source sourceEnvMalformedThenValidActual).mongoCreated
            && (process_connector_configs_source sourceEnvMalformedThenValidActual).kafkaCreated
            && (create_topic (sourceEnvMalformedThenValidActual.topicHttp 1)
                  && eligibleSource (sourceEnvMalformedThenValidActual.files.getD 1 none))
            && noEarlierSourceEligible sourceEnvMalformedThenValidActual.topicHttp
                sourceEnvMalformedThenValidActual.files 0 1)) :=
  c1_gate_depends_on_file_eligibility sinkEnvMalformedThenValidActual
    sourceEnvMalformedThenValidActual 1 1 rfl rfl (by decide) (by decide)

/-! ## Claim C2 (code bug) -/

/-- C2: the per-file loop is supposed to isolate failures, but the sink
orchestrator's `create_stream_processor` call site passes eleven arguments
to a five-parameter function, so the first eligible file's provisioning
call raises `TypeError`; the exception propagates out of the loop — in a
two-valid-file batch with both shared connections created, only the first
file is ever processed and the exception escapes the batch. -/
theorem c2_processor_call_typeerror_aborts_batch :
    (process_connector_configs_sink sinkEnvTwoValidFiles).raised = true
    ∧ (process_connector_configs_sink sinkEnvTwoValidFiles).attempts = [true]
    ∧ sinkEnvTwoValidFiles.files.length = 2 := by
  exact ⟨rfl, rfl, rfl⟩
